import Mathlib

/-!
Verification of the gethscan swap scanner (scanner/scanswap.go, params/config.go).

The Go code is embedded shallowly:
* byte slices become `List Nat` (`Bytes`), hex strings are parsed by an
  executable `fromHex`;
* `strings.EqualFold` on the ASCII hex addresses used by the scanner becomes
  lowercase comparison (`eqFold`);
* `common.BytesToAddress(b).Hex()` produces an EIP-55 checksummed hex string in
  Go; every use in the scanner feeds it to `strings.EqualFold`, which erases
  letter case, so it is embedded as the lowercase hex form (`bytesToAddressHex`);
* functions that can panic in Go (indexing `Topics[0]` / `Topics[2]`, or
  dereferencing a nil receipt) return `Option`: `none` models the panic;
* side effects (posting to the dispatcher, adding to the retry ring, inserting
  into the mongodb collections) are returned as explicit values/lists;
* the chain RPC environment is passed in: `receiptOf` is the result of
  `loopGetTxReceipt` for the transaction at hand (`none` = lookup error or
  receipt status different from 1), and `attempts i` is the outcome of the
  i-th `rpcPost` call inside `postSwapPost`.
-/

set_option autoImplicit false
set_option maxRecDepth 100000

namespace Gethscan

/-! ## Bytes, hex and string helpers -/

abbrev Bytes := List Nat

def hexVal (c : Char) : Nat :=
  if 48 ≤ c.toNat && c.toNat ≤ 57 then c.toNat - 48
  else if 97 ≤ c.toNat && c.toNat ≤ 102 then c.toNat - 87
  else if 65 ≤ c.toNat && c.toNat ≤ 70 then c.toNat - 55
  else 0

def hexPairsToBytes : List Char → Bytes
  | a :: b :: rest => (hexVal a * 16 + hexVal b) :: hexPairsToBytes rest
  | _ => []

def stripHexMark : List Char → List Char
  | '0' :: 'x' :: rest => rest
  | l => l

/-- common.FromHex / common.HexToHash: decode a 0x-prefixed hex string. -/
def fromHex (s : String) : Bytes :=
  hexPairsToBytes (stripHexMark s.data)

def charToLower (c : Char) : Char :=
  if 65 ≤ c.toNat && c.toNat ≤ 90 then Char.ofNat (c.toNat + 32) else c

def strToLower (s : String) : String := String.mk (s.data.map charToLower)

/-- strings.EqualFold, restricted to the ASCII strings the scanner compares. -/
def eqFold (a b : String) : Bool := strToLower a == strToLower b

/-- does `pat` occur at the head of `s`? -/
def leadMatch : List Char → List Char → Bool
  | [], _ => true
  | _ :: _, [] => false
  | a :: as, b :: bs => (a == b) && leadMatch as bs

/-- does `pat` occur anywhere inside `s`? -/
def hasSub (pat : List Char) : List Char → Bool
  | [] => leadMatch pat []
  | c :: rest => leadMatch pat (c :: rest) || hasSub pat rest

/-- strings.Contains. -/
def strContains (s sub : String) : Bool := hasSub sub.data s.data

def hexDigitChar (n : Nat) : Char :=
  if n < 10 then Char.ofNat (48 + n) else Char.ofNat (87 + n)

def byteToHexChars (b : Nat) : List Char :=
  [hexDigitChar (b / 16 % 16), hexDigitChar (b % 16)]

def bytesToHexStr (bs : Bytes) : String :=
  String.mk ('0' :: 'x' :: bs.flatMap byteToHexChars)

/-- common.Address.SetBytes: keep the last 20 bytes, left-pad with zeros. -/
def addressFromBytes (b : Bytes) : Bytes :=
  let t := if b.length > 20 then b.drop (b.length - 20) else b
  List.replicate (20 - t.length) 0 ++ t

/-- common.BytesToAddress(b).Hex(), up to the letter case erased by
strings.EqualFold (Go emits EIP-55 mixed case, we emit lowercase). -/
def bytesToAddressHex (b : Bytes) : String :=
  bytesToHexStr (addressFromBytes b)

/-- common.GetData: slice `[start, start+size)` right-padded with zeros. -/
def getData (data : Bytes) (start size : Nat) : Bytes :=
  let seg := (data.drop start).take size
  seg ++ List.replicate (size - seg.length) 0

/-! ## Constants from scanner/scanswap.go -/

def transferFuncHash : Bytes := fromHex "0xa9059cbb"
def transferFromFuncHash : Bytes := fromHex "0x23b872dd"
def addressSwapoutFuncHash : Bytes := fromHex "0x628d6cba"
def stringSwapoutFuncHash : Bytes := fromHex "0xad54056d"

def transferLogTopic : Bytes :=
  fromHex "0xddf252ad1be2c89b69c2b068fc378daa952ba7f163c4a11628f55a4df523b3ef"
def addressSwapoutLogTopic : Bytes :=
  fromHex "0x6b616089d04950dc06c45c6dd787d657980543f89651aec47924752c7d16c888"
def stringSwapoutLogTopic : Bytes :=
  fromHex "0x9c92ad817e5474d30a4378deface765150479363a897b0590fbb12ae9d89396b"

def routerAnySwapOutTopic : Bytes :=
  fromHex "0x97116cf6cd4f6412bb47914d6db18da9e16ab2142f543b86e207c24fbd16b23a"
def routerAnySwapTradeTokensForTokensTopic : Bytes :=
  fromHex "0xfea6abdf4fd32f20966dff7619354cd82cd43dc78a3bee479f04c74dbfc585b3"
def routerAnySwapTradeTokensForNativeTopic : Bytes :=
  fromHex "0x278277e0209c347189add7bd92411973b5f6b8644f7ac62ea1be984ce993f8f4"

def logNFT721SwapOutTopic : Bytes :=
  fromHex "0x0d45b0b9f5add3e1bb841982f1fa9303628b0b619b000cb1f9f1c3903329a4c7"
def logNFT1155SwapOutTopic : Bytes :=
  fromHex "0x5058b8684cf36ffd9f66bc623fbc617a44dd65cf2273306d03d3104af0995cb0"
def logNFT1155SwapOutBatchTopic : Bytes :=
  fromHex "0xaa428a5ab688b49b415401782c170d216b33b15711d30cf69482f570eca8db38"

def logAnycallSwapOutTopic : Bytes :=
  fromHex "0x9ca1de98ebed0a9c38ace93d3ca529edacbbe199cf1b6f0f416ae9b724d4a81c"
def logAnycallTransferSwapOutTopic : Bytes :=
  fromHex "0xcaac11c45e5fdb5c513e20ac229a3f9f99143580b5eb08d0fecbdd5ae8c81ef5"

/-- common.Hash{}: the zero hash. -/
def zeroHash : Bytes := List.replicate 32 0

def httpTimeoutKeywords : String := "Client.Timeout exceeded while awaiting headers"
def errConnectionRefused : String := "connect: connection refused"
def errMaximumRequestLimit : String := "You have reached maximum request limit"

/-! ## Data model (params/config.go) -/

def TxSwapin : String := "swapin"
def TxSwapout : String := "swapout"
def TxSwapout2 : String := "swapout2"
def TxRouterERC20Swap : String := "routerswap"
def TxRouterNFTSwap : String := "nftswap"
def TxRouterAnycallSwap : String := "anycallswap"
def TxRouterGas : String := "gasswap"

structure TokenConfig where
  txType : String
  swapServer : String
  callByContract : String := ""
  whitelist : List String := []
  pairID : String := ""
  tokenAddress : String := ""
  depositAddress : String := ""
  chainID : String := ""
  routerContract : String := ""
deriving DecidableEq, Repr

def TokenConfig.IsNativeToken (c : TokenConfig) : Bool :=
  c.tokenAddress == "native"

/-- params.TokenConfig.IsRouterSwap: only the erc20 and gas router kinds. -/
def TokenConfig.IsRouterSwap (c : TokenConfig) : Bool :=
  c.txType == TxRouterERC20Swap || c.txType == TxRouterGas

def TokenConfig.IsRouterERC20Swap (c : TokenConfig) : Bool :=
  c.txType == TxRouterERC20Swap || c.txType == TxRouterGas

def TokenConfig.IsRouterNFTSwap (c : TokenConfig) : Bool :=
  c.txType == TxRouterNFTSwap

def TokenConfig.IsRouterAnycallSwap (c : TokenConfig) : Bool :=
  c.txType == TxRouterAnycallSwap

/-- types.Log, with `data = none` modelling a nil Data slice. -/
structure Log where
  address : String
  topics : List Bytes
  data : Option Bytes := some []
  removed : Bool := false
deriving DecidableEq, Repr

structure Receipt where
  logs : List Log
deriving DecidableEq, Repr

/-- types.Transaction, with `to = none` modelling a nil To() (contract creation). -/
structure Transaction where
  toAddr : Option String
  hash : String
  data : Bytes := []
deriving DecidableEq, Repr

structure swapPost where
  txid : String := ""
  rpcMethod : String := ""
  swapServer : String := ""
  chain : String := ""
  pairID : String := ""
  chainID : String := ""
  logIndex : String := ""
deriving DecidableEq, Repr

inductive VerifyError where
  | txWithWrongReceiver
  | txFuncHashMismatch
  | txWithWrongInput
  | depositLogNotFound
  | swapoutLogNotFound
deriving DecidableEq, Repr

/-! ## Classifier / verifier (scanner/scanswap.go) -/

/-- getSwapoutFuncHashByTxType; the unknown-type branch returns nil, embedded
as the empty byte list (bytes.Equal against a 4-byte selector is then false). -/
def getSwapoutFuncHashByTxType (txType : String) : Bytes :=
  if strToLower txType == TxSwapout then addressSwapoutFuncHash
  else if strToLower txType == TxSwapout2 then stringSwapoutFuncHash
  else []

def getLogTopicByTxType (txType : String) : Bytes × Nat :=
  if strToLower txType == TxSwapin then (transferLogTopic, 3)
  else if strToLower txType == TxSwapout then (addressSwapoutLogTopic, 3)
  else if strToLower txType == TxSwapout2 then (stringSwapoutLogTopic, 2)
  else (zeroHash, 0)

/-- The `cmpTxTo` / initial `needReceipt` computation at the head of
checkTxToAddress. -/
def expectedTxTo (scanReceipt : Bool) (cfg : TokenConfig) : String × Bool :=
  if cfg.IsRouterSwap then (cfg.routerContract, true)
  else if cfg.IsNativeToken then (cfg.depositAddress, scanReceipt)
  else if cfg.callByContract != "" then (cfg.callByContract, true)
  else (cfg.tokenAddress, scanReceipt)

structure CheckToResult where
  receipt : Option Receipt
  isAccept : Bool
  /-- instrumentation: records whether loopGetTxReceipt was invoked. -/
  fetched : Bool
deriving DecidableEq, Repr

/-- checkTxToAddress. `receiptOf` is the environment's answer to
loopGetTxReceipt for this transaction (`none` = error / bad status). -/
def checkTxToAddress (scanReceipt : Bool) (receiptOf : Option Receipt)
    (txtoAddress : String) (cfg : TokenConfig) : CheckToResult :=
  let ed := expectedTxTo scanReceipt cfg
  let ar :=
    if eqFold txtoAddress ed.1 then (true, ed.2)
    else if !cfg.IsNativeToken && cfg.whitelist.any (fun w => eqFold txtoAddress w) then
      (true, true)
    else (false, ed.2)
  if !ar.1 then ⟨none, false, false⟩
  else if ar.2 then
    match receiptOf with
    | none => ⟨none, false, true⟩
    | some r => ⟨some r, true, true⟩
  else ⟨none, true, false⟩

/-- parseErc20SwapinTxInput. -/
def parseErc20SwapinTxInput (input : Bytes) (depositAddress : String) :
    Option VerifyError :=
  if input.length < 4 then some .txWithWrongInput
  else
    let funcHash := input.take 4
    if funcHash == transferFuncHash then
      if eqFold (bytesToAddressHex (getData input 4 32)) depositAddress then none
      else some .txWithWrongReceiver
    else if funcHash == transferFromFuncHash then
      if eqFold (bytesToAddressHex (getData input 36 32)) depositAddress then none
      else some .txWithWrongReceiver
    else some .txFuncHashMismatch

/-- The loop of parseErc20SwapinTxLogs. Result `none` models the Go panic on
an out-of-range topic access; `some e` is the returned error, `some none`
success. The boolean accumulator is `transferLogExist`. -/
def parseErc20SwapinTxLogsAux (targetContract depositAddress : String)
    (cmpLogTopic : Bytes) (topicsLen : Nat) :
    List Log → Bool → Option (Option VerifyError)
  | [], texist =>
    some (if texist then some .txWithWrongReceiver else some .depositLogNotFound)
  | rlog :: rest, texist =>
    if rlog.removed then
      parseErc20SwapinTxLogsAux targetContract depositAddress cmpLogTopic topicsLen rest texist
    else if !eqFold rlog.address targetContract then
      parseErc20SwapinTxLogsAux targetContract depositAddress cmpLogTopic topicsLen rest texist
    else if !(rlog.topics.length == topicsLen && rlog.data.isSome) then
      parseErc20SwapinTxLogsAux targetContract depositAddress cmpLogTopic topicsLen rest texist
    else
      match rlog.topics.get? 0 with
      | none => none
      | some t0 =>
        if !(t0 == cmpLogTopic) then
          parseErc20SwapinTxLogsAux targetContract depositAddress cmpLogTopic topicsLen rest texist
        else
          match rlog.topics.get? 2 with
          | none => none
          | some t2 =>
            if eqFold (bytesToAddressHex t2) depositAddress then some none
            else parseErc20SwapinTxLogsAux targetContract depositAddress cmpLogTopic topicsLen rest true

/-- parseErc20SwapinTxLogs. -/
def parseErc20SwapinTxLogsGo (cfg : TokenConfig) (logs : List Log) :
    Option (Option VerifyError) :=
  let tl := getLogTopicByTxType cfg.txType
  parseErc20SwapinTxLogsAux cfg.tokenAddress cfg.depositAddress tl.1 tl.2 logs false

/-- parseSwapoutTxInput. -/
def parseSwapoutTxInput (input : Bytes) (txType : String) : Option VerifyError :=
  if input.length < 4 then some .txWithWrongInput
  else if input.take 4 == getSwapoutFuncHashByTxType txType then none
  else some .txFuncHashMismatch

/-- The loop of parseSwapoutTxLogs; `none` models the panic on `Topics[0]`. -/
def parseSwapoutTxLogsAux (targetContract : String) (cmpLogTopic : Bytes)
    (topicsLen : Nat) : List Log → Option (Option VerifyError)
  | [] => some (some .swapoutLogNotFound)
  | rlog :: rest =>
    if rlog.removed then parseSwapoutTxLogsAux targetContract cmpLogTopic topicsLen rest
    else if !eqFold rlog.address targetContract then
      parseSwapoutTxLogsAux targetContract cmpLogTopic topicsLen rest
    else if !(rlog.topics.length == topicsLen && rlog.data.isSome) then
      parseSwapoutTxLogsAux targetContract cmpLogTopic topicsLen rest
    else
      match rlog.topics.get? 0 with
      | none => none
      | some t0 =>
        if t0 == cmpLogTopic then some none
        else parseSwapoutTxLogsAux targetContract cmpLogTopic topicsLen rest

/-- parseSwapoutTxLogs. -/
def parseSwapoutTxLogsGo (cfg : TokenConfig) (logs : List Log) :
    Option (Option VerifyError) :=
  let tl := getLogTopicByTxType cfg.txType
  parseSwapoutTxLogsAux cfg.tokenAddress tl.1 tl.2 logs

/-- verifyErc20SwapinTx. -/
def verifyErc20SwapinTx (tx : Transaction) (receipt : Option Receipt)
    (cfg : TokenConfig) : Option (Option VerifyError) :=
  match receipt with
  | none => some (parseErc20SwapinTxInput tx.data cfg.depositAddress)
  | some r => parseErc20SwapinTxLogsGo cfg r.logs

/-- verifySwapoutTx. -/
def verifySwapoutTx (tx : Transaction) (receipt : Option Receipt)
    (cfg : TokenConfig) : Option (Option VerifyError) :=
  match receipt with
  | none => some (parseSwapoutTxInput tx.data cfg.txType)
  | some r => parseSwapoutTxLogsGo cfg r.logs

/-- postBridgeSwap: the swapPost record built for a bridge rule. -/
def postBridgeSwap (txid : String) (cfg : TokenConfig) : swapPost :=
  { txid := txid
    pairID := cfg.pairID
    rpcMethod := if cfg.depositAddress != "" then "swap.Swapin" else "swap.Swapout"
    swapServer := cfg.swapServer }

/-- postRouterSwap: the swapPost record built for a router rule. -/
def postRouterSwap (txid : String) (logIndex : Nat) (cfg : TokenConfig) : swapPost :=
  { txid := txid
    chainID := cfg.chainID
    logIndex := toString logIndex
    rpcMethod := "swap.RegisterRouterSwap"
    swapServer := cfg.swapServer }

/-- The switch on the router sub-kind inside verifyAndPostRouterSwapTx.
The Go switch has no default case: a tokenCfg matching none of the three
predicates falls through to the post. -/
def routerTopicSetOk (cfg : TokenConfig) (logTopic : Bytes) : Bool :=
  if cfg.IsRouterERC20Swap then
    logTopic == routerAnySwapOutTopic ||
      logTopic == routerAnySwapTradeTokensForTokensTopic ||
      logTopic == routerAnySwapTradeTokensForNativeTopic
  else if cfg.IsRouterNFTSwap then
    logTopic == logNFT721SwapOutTopic ||
      logTopic == logNFT1155SwapOutTopic ||
      logTopic == logNFT1155SwapOutBatchTopic
  else if cfg.IsRouterAnycallSwap then
    logTopic == logAnycallSwapOutTopic ||
      logTopic == logAnycallTransferSwapOutTopic
  else true

/-- The loop of verifyAndPostRouterSwapTx; the index `i` is the position in
`receipt.Logs`. Result `none` models the Go panic on `rlog.Topics[0]` when a
non-removed log on the router contract has no topics. -/
def verifyRouterAux (cfg : TokenConfig) (txHash : String) :
    Nat → List Log → Option (List swapPost)
  | _, [] => some []
  | i, rlog :: rest =>
    if rlog.removed then verifyRouterAux cfg txHash (i + 1) rest
    else if !eqFold rlog.address cfg.routerContract then
      verifyRouterAux cfg txHash (i + 1) rest
    else
      match rlog.topics with
      | [] => none
      | t0 :: _ =>
        if routerTopicSetOk cfg t0 then
          (verifyRouterAux cfg txHash (i + 1) rest).map
            (fun ps => postRouterSwap txHash i cfg :: ps)
        else verifyRouterAux cfg txHash (i + 1) rest

/-- verifyAndPostRouterSwapTx: the list of router swapPost records emitted. -/
def verifyAndPostRouterSwapTx (txHash : String) (receipt : Option Receipt)
    (cfg : TokenConfig) : Option (List swapPost) :=
  match receipt with
  | none => some []
  | some r => verifyRouterAux cfg txHash 0 r.logs

structure VerifyOutcome where
  posts : List swapPost
  err : Option VerifyError
deriving DecidableEq, Repr

/-- verifyTransaction: the records posted to the dispatcher plus the returned
verify error. `none` models a Go panic. -/
def verifyTransaction (scanReceipt : Bool) (receiptOf : Option Receipt)
    (tx : Transaction) (cfg : TokenConfig) : Option VerifyOutcome :=
  match tx.toAddr with
  | none => none
  | some txto =>
    let chk := checkTxToAddress scanReceipt receiptOf txto cfg
    if !chk.isAccept then some ⟨[], none⟩
    else
      let txHash := tx.hash
      if cfg.IsRouterSwap then
        match verifyAndPostRouterSwapTx txHash chk.receipt cfg with
        | none => none
        | some posts => some ⟨posts, none⟩
      else if cfg.depositAddress != "" then
        if cfg.IsNativeToken then some ⟨[postBridgeSwap txHash cfg], none⟩
        else
          match verifyErc20SwapinTx tx chk.receipt cfg with
          | none => none
          | some verifyErr =>
            if verifyErr = some VerifyError.txWithWrongReceiver then some ⟨[], none⟩
            else
              match verifyErr with
              | none => some ⟨[postBridgeSwap txHash cfg], none⟩
              | some e => some ⟨[], some e⟩
      else
        let res :=
          if scanReceipt then
            match chk.receipt with
            | none => none
            | some r => parseSwapoutTxLogsGo cfg r.logs
          else verifySwapoutTx tx chk.receipt cfg
        match res with
        | none => none
        | some none => some ⟨[postBridgeSwap txHash cfg], none⟩
        | some (some e) => some ⟨[], some e⟩

/-- The loop body of scanTransaction: offer the transaction to every token
rule in order, collecting each rule's outcome (the Go loop ignores the
returned error and never breaks). -/
def scanTxRules (scanReceipt : Bool) (receiptOf : Option Receipt)
    (tx : Transaction) : List TokenConfig → Option (List VerifyOutcome)
  | [] => some []
  | cfg :: rest =>
    match verifyTransaction scanReceipt receiptOf tx cfg with
    | none => none
    | some o => (scanTxRules scanReceipt receiptOf tx rest).map (fun os => o :: os)

/-- scanTransaction. A nil To() returns immediately with an empty trace. -/
def scanTransaction (scanReceipt : Bool) (receiptOf : Option Receipt)
    (rules : List TokenConfig) (tx : Transaction) : Option (List VerifyOutcome) :=
  match tx.toAddr with
  | none => some []
  | some _ => scanTxRules scanReceipt receiptOf tx rules

/-! ## Registration dispatcher (postSwapPost) -/

/-- The outcome of one rpcPost call, as classified by postSwapPost:
success, the tokens.ErrTxNotFound sentinel, or another error message. -/
inductive RpcOutcome where
  | ok
  | errTxNotFound
  | errMsg (msg : String)
deriving DecidableEq, Repr

def isTransientErrMsg (m : String) : Bool :=
  strContains m httpTimeoutKeywords ||
    strContains m errConnectionRefused ||
    strContains m errMaximumRequestLimit

def isTransientPostErr : RpcOutcome → Bool
  | .ok => false
  | .errTxNotFound => true
  | .errMsg m => isTransientErrMsg m

/-- The retry loop of postSwapPost: `i` is the attempt index, the second
argument the remaining attempts, then the needCached / needPending flags.
Success breaks out; a transient error sets both flags. -/
def postSwapLoop (attempts : Nat → RpcOutcome) :
    Nat → Nat → Bool → Bool → Bool × Bool
  | _, 0, needCached, needPending => (needCached, needPending)
  | i, fuel + 1, needCached, needPending =>
    match attempts i with
    | .ok => (needCached, needPending)
    | .errTxNotFound => postSwapLoop attempts (i + 1) fuel true true
    | .errMsg m =>
      if isTransientErrMsg m then postSwapLoop attempts (i + 1) fuel true true
      else postSwapLoop attempts (i + 1) fuel needCached needPending

/-- The inserts performed by one postSwapPost invocation. -/
structure PostEffects where
  /-- cachedSwapPosts.Add (the in-memory retry ring). -/
  ringAdds : List swapPost
  /-- addMongodbSwapPendingPost (the durable pending queue). -/
  pendingInserts : List swapPost
  /-- addMongodbSwapPost (the plain registered collection). -/
  registeredInserts : List swapPost
deriving DecidableEq, Repr

/-- postSwapPost: run the retry loop, then write the record to the retry
ring / pending queue / registered collection according to the flags. -/
def postSwapPost (rpcRetryCount : Nat) (mongodbEnable : Bool)
    (attempts : Nat → RpcOutcome) (swap : swapPost) : PostEffects :=
  let r := postSwapLoop attempts 0 rpcRetryCount false false
  { ringAdds := if r.1 then [swap] else []
    pendingInserts := if r.2 && mongodbEnable then [swap] else []
    registeredInserts := if !r.1 && !r.2 && mongodbEnable then [swap] else [] }

/-! ## Sync-height checkpoint (updateSyncdBlockNumber) -/

structure SyncState where
  syncedNumber : Nat
  syncedCount : Nat
  synced : Bool
deriving DecidableEq, Repr

/-- updateSyncdBlockNumber. The second component is the value written to the
store by mongodb.UpdateSyncedBlockNumber (the write is modelled as
succeeding; on a write error the Go code keeps the counter and retries the
flush on the next call). -/
def updateSyncdBlockNumber (syncdCount2Mongodb : Nat) (number : Nat)
    (s : SyncState) : SyncState × Option Nat :=
  let s1 :=
    if number = s.syncedNumber + 1 then
      { s with syncedCount := s.syncedCount + 1, syncedNumber := number }
    else s
  if syncdCount2Mongodb ≤ s1.syncedCount then
    ({ s1 with synced := true, syncedCount := 0 }, some s1.syncedNumber)
  else (s1, none)

/-- Fold updateSyncdBlockNumber over a list of scanned heights, collecting
the store writes. -/
def runUpdates (syncdCount2Mongodb : Nat) (heights : List Nat)
    (s : SyncState) : SyncState × List Nat :=
  heights.foldl
    (fun acc h =>
      let r := updateSyncdBlockNumber syncdCount2Mongodb h acc.1
      (r.1, acc.2 ++ r.2.toList))
    (s, [])

/-! ## Spec-side definitions (refinement targets, written from the spec's words) -/

/-- Spec: "non-removed log on tokenAddress with the Transfer topic, exactly
3 topics and non-nil data". -/
def isSwapinTransferLog (cfg : TokenConfig) (l : Log) : Bool :=
  !l.removed && eqFold l.address cfg.tokenAddress &&
    l.topics.length == 3 && l.data.isSome && l.topics.get? 0 == some transferLogTopic

/-- Spec: "topics[2] equal (case-insensitively) to depositAddress"
(addresses are compared after decoding the topic word to an address). -/
def swapinReceiverOk (cfg : TokenConfig) (l : Log) : Bool :=
  match l.topics.get? 2 with
  | some t2 => eqFold (bytesToAddressHex t2) cfg.depositAddress
  | none => false

/-- Spec-side verdict for ERC-20 bridge-swapin receipt verification: success
iff some matching transfer log carries the deposit receiver; wrong-receiver
if a transfer log exists but none matches; deposit-log-not-found otherwise. -/
def specErc20SwapinVerdict (cfg : TokenConfig) (logs : List Log) :
    Option (Option VerifyError) :=
  if logs.any (fun l => isSwapinTransferLog cfg l && swapinReceiverOk cfg l) then
    some none
  else if logs.any (fun l => isSwapinTransferLog cfg l) then
    some (some .txWithWrongReceiver)
  else some (some .depositLogNotFound)

/-- Spec: "non-removed log whose address is the router contract and whose
first topic is in the rule's topic-set". -/
def routerLogTopicOk (cfg : TokenConfig) (l : Log) : Bool :=
  match l.topics with
  | [] => false
  | t0 :: _ => routerTopicSetOk cfg t0

def routerMatchingLog (cfg : TokenConfig) (l : Log) : Bool :=
  !l.removed && eqFold l.address cfg.routerContract && routerLogTopicOk cfg l

/-- Spec-side router emission: one router record per matching log, carrying
that log's index in the receipt's log array. -/
def specRouterPosts (cfg : TokenConfig) (txHash : String) (logs : List Log) :
    List swapPost :=
  ((List.enumFrom 0 logs).filter (fun p => routerMatchingLog cfg p.2)).map
    (fun p => postRouterSwap txHash p.1 cfg)

/-! ## Concrete inputs used by counterexamples and witnesses -/

def c1Attempts : Nat → RpcOutcome :=
  fun i => if i == 0 then RpcOutcome.errMsg errConnectionRefused else RpcOutcome.ok

def c1Swap : swapPost :=
  { txid := "0xc1", rpcMethod := "swap.Swapin", swapServer := "srv", pairID := "p1" }

def c2Cfg : TokenConfig :=
  { txType := "nftswap", swapServer := "s", chainID := "56",
    tokenAddress := "0xr", routerContract := "0xr" }

def c2Log : Log := { address := "0xr", topics := [logNFT721SwapOutTopic] }

def c2Tx : Transaction := { toAddr := some "0xr", hash := "0xt2" }

def c2ErcCfg : TokenConfig :=
  { txType := "routerswap", swapServer := "s", chainID := "56", routerContract := "0xr" }

def c2ErcLog : Log := { address := "0xr", topics := [routerAnySwapOutTopic] }

def c2ErcLogOther : Log := { address := "0xr", topics := [transferLogTopic] }

def c3Cfg : TokenConfig :=
  { txType := "swapin", swapServer := "s", pairID := "p",
    tokenAddress := "native", depositAddress := "0xdep", whitelist := ["0xwhite"] }

def c3NonNativeCfg : TokenConfig :=
  { txType := "swapin", swapServer := "s", pairID := "p",
    tokenAddress := "0xtok", depositAddress := "0xdep", whitelist := ["0xwhite"] }

def c4CfgA : TokenConfig :=
  { txType := "swapin", swapServer := "sa", pairID := "pa",
    tokenAddress := "native", depositAddress := "0xd" }

def c4CfgB : TokenConfig :=
  { txType := "swapin", swapServer := "sb", pairID := "pb",
    tokenAddress := "native", depositAddress := "0xd" }

def c4Tx : Transaction := { toAddr := some "0xd", hash := "0xt4" }

def c5Topic2 : Bytes := List.replicate 31 0 ++ [5]

def c5Cfg : TokenConfig :=
  { txType := "swapin", swapServer := "s", pairID := "p",
    tokenAddress := "0xtc", depositAddress := bytesToAddressHex c5Topic2 }

def c5Logs : List Log :=
  [{ address := "0xtc", topics := [transferLogTopic, zeroHash, c5Topic2], data := some [1] }]

def c10Tx : Transaction := { toAddr := none, hash := "0xcc" }

/-! ## Helper lemmas -/

theorem postSwapLoop_absorb (attempts : Nat → RpcOutcome) :
    ∀ (fuel i : Nat), postSwapLoop attempts i fuel true true = (true, true) := by
  intro fuel
  induction fuel with
  | zero => intro i; rfl
  | succ f ih =>
    intro i
    simp only [postSwapLoop]
    cases attempts i with
    | ok => rfl
    | errTxNotFound => exact ih (i + 1)
    | errMsg m =>
      by_cases h : isTransientErrMsg m = true
      · simp [h, ih]
      · simp [h, ih]

theorem postSwapLoop_step_transient (attempts : Nat → RpcOutcome) (i fuel : Nat)
    (c p : Bool) (h : isTransientPostErr (attempts i) = true) :
    postSwapLoop attempts i (fuel + 1) c p = postSwapLoop attempts (i + 1) fuel true true := by
  simp only [postSwapLoop]
  cases ha : attempts i with
  | ok => rw [ha] at h; simp [isTransientPostErr] at h
  | errTxNotFound => rfl
  | errMsg m =>
    rw [ha] at h
    simp only [isTransientPostErr] at h
    simp [h]

theorem postSwapLoop_step_keep (attempts : Nat → RpcOutcome) (i fuel : Nat)
    (c p : Bool) (hok : attempts i ≠ RpcOutcome.ok)
    (h : isTransientPostErr (attempts i) = false) :
    postSwapLoop attempts i (fuel + 1) c p = postSwapLoop attempts (i + 1) fuel c p := by
  cases ha : attempts i with
  | ok => exact absurd ha hok
  | errTxNotFound => rw [ha] at h; simp [isTransientPostErr] at h
  | errMsg m =>
    rw [ha] at h
    simp only [isTransientPostErr] at h
    simp only [postSwapLoop, ha]
    simp [h]

theorem postSwapLoop_diag (attempts : Nat → RpcOutcome) :
    ∀ (fuel i : Nat) (c : Bool),
      (postSwapLoop attempts i fuel c c).2 = (postSwapLoop attempts i fuel c c).1 := by
  intro fuel
  induction fuel with
  | zero => intro i c; rfl
  | succ f ih =>
    intro i c
    simp only [postSwapLoop]
    cases attempts i with
    | ok => rfl
    | errTxNotFound => exact ih (i + 1) true
    | errMsg m =>
      by_cases h : isTransientErrMsg m = true
      · simp [h]; exact ih (i + 1) true
      · simp [h]; exact ih (i + 1) c

/-! ## Claim theorems -/

/-- Claim C1, counterexample: with a transient error ("connect: connection
refused") on the first attempt and a successful rpcPost on the second,
postSwapPost adds the record to the retry ring and the pending collection and
inserts nothing into the registered collection — the opposite of the claim. -/
theorem postSwapPost_transient_then_success_counterexample :
    isTransientPostErr (c1Attempts 0) = true ∧ c1Attempts 1 = RpcOutcome.ok ∧
    postSwapPost 3 true c1Attempts c1Swap =
      { ringAdds := [c1Swap], pendingInserts := [c1Swap], registeredInserts := [] } :=
  ⟨by decide, rfl, by decide⟩

/-- Claim C1 (amended): for every SwapRecord whose dispatch sees at least one
transient error on an early attempt and then a successful rpcPost within the
3 retries, the dispatcher (with mongodb enabled) pushes the record into the
in-memory retry ring AND inserts it into the pending queue, and inserts
nothing into the registered collection. -/
theorem postSwapPost_transient_then_success (attempts : Nat → RpcOutcome)
    (swap : swapPost) (i j : Nat) (hij : i < j) (hj : j < 3)
    (htrans : isTransientPostErr (attempts i) = true)
    (hbefore : ∀ k, k < j → attempts k ≠ RpcOutcome.ok)
    (_hsucc : attempts j = RpcOutcome.ok) :
    postSwapPost 3 true attempts swap =
      { ringAdds := [swap], pendingInserts := [swap], registeredInserts := [] } := by
  have hres : postSwapLoop attempts 0 3 false false = (true, true) := by
    have hi2 : i < 2 := by omega
    interval_cases i
    · rw [show (3 : Nat) = 2 + 1 from rfl,
        postSwapLoop_step_transient attempts 0 2 false false htrans,
        postSwapLoop_absorb]
    · have h0 : attempts 0 ≠ RpcOutcome.ok := hbefore 0 (by omega)
      by_cases ht0 : isTransientPostErr (attempts 0) = true
      · rw [show (3 : Nat) = 2 + 1 from rfl,
          postSwapLoop_step_transient attempts 0 2 false false ht0,
          postSwapLoop_absorb]
      · rw [show (3 : Nat) = 2 + 1 from rfl,
          postSwapLoop_step_keep attempts 0 2 false false h0
            (by simpa using ht0),
          show (2 : Nat) = 1 + 1 from rfl,
          postSwapLoop_step_transient attempts 1 1 false false htrans,
          postSwapLoop_absorb]
  simp [postSwapPost, hres]

/-- Claim C1 amended-theorem witness at a concrete input. -/
theorem postSwapPost_transient_then_success_witness :
    (0 : Nat) < 1 ∧ (1 : Nat) < 3 ∧ isTransientPostErr (c1Attempts 0) = true ∧
    (∀ k, k < 1 → c1Attempts k ≠ RpcOutcome.ok) ∧ c1Attempts 1 = RpcOutcome.ok ∧
    postSwapPost 3 true c1Attempts c1Swap =
      { ringAdds := [c1Swap], pendingInserts := [c1Swap], registeredInserts := [] } :=
  ⟨by decide, by decide, by decide, by decide, rfl,
    postSwapPost_transient_then_success c1Attempts c1Swap 0 1 (by decide) (by decide)
      (by decide) (by decide) rfl⟩

/-- Claim C9: one postSwapPost invocation never inserts into both the pending
and registered collections; with mongodb enabled it writes the record to
exactly one destination class — ring plus pending when a transient error was
observed by the retry loop, registered otherwise. -/
theorem postSwapPost_single_destination :
    (∀ (n : Nat) (mongo : Bool) (attempts : Nat → RpcOutcome) (swap : swapPost),
      ((postSwapPost n mongo attempts swap).pendingInserts.isEmpty ||
        (postSwapPost n mongo attempts swap).registeredInserts.isEmpty) = true)
  ∧ (∀ (n : Nat) (attempts : Nat → RpcOutcome) (swap : swapPost),
      postSwapPost n true attempts swap =
        if (postSwapLoop attempts 0 n false false).1 then
          { ringAdds := [swap], pendingInserts := [swap], registeredInserts := [] }
        else
          { ringAdds := [], pendingInserts := [], registeredInserts := [swap] }) := by
  constructor
  · intro n mongo attempts swap
    have h := postSwapLoop_diag attempts n 0 false
    simp only [postSwapPost, h]
    cases hc : (postSwapLoop attempts 0 n false false).1 <;> cases mongo <;> simp
  · intro n attempts swap
    have h := postSwapLoop_diag attempts n 0 false
    simp only [postSwapPost, h]
    cases hc : (postSwapLoop attempts 0 n false false).1 <;> simp

/-- Claim C10: a transaction with nil To() (contract creation) is returned
immediately: no rule is offered, nothing is verified or posted. -/
theorem scanTransaction_contract_creation (scanReceipt : Bool)
    (receiptOf : Option Receipt) (rules : List TokenConfig) (tx : Transaction)
    (h : tx.toAddr = none) :
    scanTransaction scanReceipt receiptOf rules tx = some [] := by
  unfold scanTransaction
  rw [h]

/-- Claim C10 witness at a concrete contract-creation transaction. -/
theorem scanTransaction_contract_creation_witness :
    c10Tx.toAddr = none ∧ scanTransaction false none [c4CfgA, c4CfgB] c10Tx = some [] :=
  ⟨rfl, scanTransaction_contract_creation false none [c4CfgA, c4CfgB] c10Tx rfl⟩

/-- Claim C4, counterexample: two native bridge rules both match the same
transaction (each emits a dispatcher post), yet the scanner still offers the
transaction to the second rule after the first matched — there is no break. -/
theorem scanTransaction_no_break_counterexample :
    scanTransaction false none [c4CfgA, c4CfgB] c4Tx =
      some [⟨[postBridgeSwap "0xt4" c4CfgA], none⟩,
        ⟨[postBridgeSwap "0xt4" c4CfgB], none⟩] := by
  decide

/-- Claim C4 (amended): the scanner offers every transaction with a non-nil
to-address to all configured TokenRules in order, regardless of whether an
earlier rule matched: the outcome trace has one entry per rule. -/
theorem scanTransaction_offers_all_rules (scanReceipt : Bool)
    (receiptOf : Option Receipt) (rules : List TokenConfig) (tx : Transaction)
    (a : String) (outs : List VerifyOutcome) (hto : tx.toAddr = some a)
    (hrun : scanTransaction scanReceipt receiptOf rules tx = some outs) :
    outs.length = rules.length := by
  unfold scanTransaction at hrun
  rw [hto] at hrun
  induction rules generalizing outs with
  | nil =>
    simp only [scanTxRules, Option.some_inj] at hrun
    subst hrun
    rfl
  | cons cfg rest ih =>
    simp only [scanTxRules] at hrun
    cases hv : verifyTransaction scanReceipt receiptOf tx cfg with
    | none => rw [hv] at hrun; simp at hrun
    | some o =>
      rw [hv] at hrun
      cases hrest : scanTxRules scanReceipt receiptOf tx rest with
      | none => rw [hrest] at hrun; simp at hrun
      | some os =>
        rw [hrest] at hrun
        simp only [Option.map_some', Option.some_inj] at hrun
        subst hrun
        simp [ih os hrest]

/-- Claim C4 amended-theorem witness at a concrete input. -/
theorem scanTransaction_offers_all_rules_witness :
    c4Tx.toAddr = some "0xd" ∧
    scanTransaction false none [c4CfgA] c4Tx =
      some [⟨[postBridgeSwap "0xt4" c4CfgA], none⟩] ∧
    ([⟨[postBridgeSwap "0xt4" c4CfgA], none⟩] : List VerifyOutcome).length =
      [c4CfgA].length :=
  ⟨rfl, by decide,
    scanTransaction_offers_all_rules false none [c4CfgA] c4Tx "0xd" _ rfl (by decide)⟩

/-- Claim C6: syncedNumber advances only on a height exactly equal to
syncedNumber + 1; the flush to the store happens exactly when the incremented
in-memory counter reaches syncdCount2Mongodb, after which the counter resets
to zero; and the S7 scenario: starting from synced = 1000, contiguously
scanning 1001..1100 with the default threshold 100 produces exactly one store
write, with value 1100, after which the counter is zero. -/
theorem updateSyncdBlockNumber_checkpoint :
    (∀ (t n : Nat) (s : SyncState),
      (updateSyncdBlockNumber t n s).1.syncedNumber =
        if n = s.syncedNumber + 1 then n else s.syncedNumber)
  ∧ (∀ (t n : Nat) (s : SyncState),
      ((updateSyncdBlockNumber t n s).2.isSome ↔
        t ≤ if n = s.syncedNumber + 1 then s.syncedCount + 1 else s.syncedCount))
  ∧ (∀ (t n : Nat) (s : SyncState),
      (updateSyncdBlockNumber t n s).1.syncedCount =
        if t ≤ (if n = s.syncedNumber + 1 then s.syncedCount + 1 else s.syncedCount) then 0
        else if n = s.syncedNumber + 1 then s.syncedCount + 1 else s.syncedCount)
  ∧ runUpdates 100 (List.range' 1001 100) ⟨1000, 0, false⟩ = (⟨1100, 0, true⟩, [1100]) := by
  refine ⟨?_, ?_, ?_, by decide⟩
  · intro t n s
    unfold updateSyncdBlockNumber
    by_cases h : n = s.syncedNumber + 1 <;> simp [h] <;> split <;> simp
  · intro t n s
    unfold updateSyncdBlockNumber
    by_cases h : n = s.syncedNumber + 1 <;> simp [h] <;> split <;> simp_all
  · intro t n s
    unfold updateSyncdBlockNumber
    by_cases h : n = s.syncedNumber + 1 <;> simp [h] <;> split <;> simp_all

/-- Claim C7: ERC-20 swapin call-data parsing succeeds iff the selector is
transfer (0xa9059cbb) with the receiver decoded from bytes [4,36) equal
case-insensitively to depositAddress, or transferFrom (0x23b872dd) with the
receiver decoded from bytes [36,68); input shorter than 4 bytes is
wrong-input, any other selector is func-hash-mismatch, and a non-matching
receiver is wrong-receiver. -/
theorem parseErc20SwapinTxInput_spec (input : Bytes) (d : String) :
    (parseErc20SwapinTxInput input d = none ↔
      (input.take 4 = transferFuncHash ∧
        eqFold (bytesToAddressHex (getData input 4 32)) d = true) ∨
      (input.take 4 = transferFromFuncHash ∧
        eqFold (bytesToAddressHex (getData input 36 32)) d = true))
  ∧ (parseErc20SwapinTxInput input d = some VerifyError.txWithWrongInput ↔
      input.length < 4)
  ∧ (parseErc20SwapinTxInput input d = some VerifyError.txFuncHashMismatch ↔
      (4 ≤ input.length ∧ input.take 4 ≠ transferFuncHash ∧
        input.take 4 ≠ transferFromFuncHash))
  ∧ (parseErc20SwapinTxInput input d = some VerifyError.txWithWrongReceiver ↔
      (input.take 4 = transferFuncHash ∧
        eqFold (bytesToAddressHex (getData input 4 32)) d = false) ∨
      (input.take 4 = transferFromFuncHash ∧
        eqFold (bytesToAddressHex (getData input 36 32)) d = false)) := by
  have hne : transferFuncHash ≠ transferFromFuncHash := by decide
  have h4a : List.length transferFuncHash = 4 := by decide
  have h4b : List.length transferFromFuncHash = 4 := by decide
  have hlen1 : input.take 4 = transferFuncHash → 4 ≤ input.length := by
    intro h
    have hl := congrArg List.length h
    rw [h4a, List.length_take] at hl
    omega
  have hlen2 : input.take 4 = transferFromFuncHash → 4 ≤ input.length := by
    intro h
    have hl := congrArg List.length h
    rw [h4b, List.length_take] at hl
    omega
  unfold parseErc20SwapinTxInput
  by_cases hlen : input.length < 4
  · simp only [if_pos hlen]
    refine ⟨?_, by simp [hlen], ?_, ?_⟩
    · constructor
      · intro h; simp at h
      · rintro (⟨h1, _⟩ | ⟨h1, _⟩)
        · have := hlen1 h1; omega
        · have := hlen2 h1; omega
    · constructor
      · intro h; simp at h
      · rintro ⟨h4, _⟩; omega
    · constructor
      · intro h; simp at h
      · rintro (⟨h1, _⟩ | ⟨h1, _⟩)
        · have := hlen1 h1; omega
        · have := hlen2 h1; omega
  · simp only [if_neg hlen, beq_iff_eq]
    by_cases h1 : input.take 4 = transferFuncHash
    · have h2 : input.take 4 ≠ transferFromFuncHash := by rw [h1]; exact hne
      simp only [if_pos h1]
      by_cases hm : eqFold (bytesToAddressHex (getData input 4 32)) d = true
      · simp [hm, h1, h2, hlen, hne]
      · simp only [Bool.not_eq_true] at hm
        simp [hm, h1, h2, hlen, hne]
    · by_cases h2 : input.take 4 = transferFromFuncHash
      · simp only [if_neg h1, if_pos h2]
        by_cases hm : eqFold (bytesToAddressHex (getData input 36 32)) d = true
        · simp [hm, h1, h2, hlen, hne.symm]
        · simp only [Bool.not_eq_true] at hm
          simp [hm, h1, h2, hlen, hne.symm]
      · simp [h1, h2, hlen, Nat.le_of_not_lt hlen]

theorem parseErc20Aux_swapin (cfg : TokenConfig) :
    ∀ (logs : List Log) (texist : Bool),
      parseErc20SwapinTxLogsAux cfg.tokenAddress cfg.depositAddress transferLogTopic 3
          logs texist =
        if logs.any (fun l => isSwapinTransferLog cfg l && swapinReceiverOk cfg l) then
          some none
        else if texist || logs.any (fun l => isSwapinTransferLog cfg l) then
          some (some VerifyError.txWithWrongReceiver)
        else some (some VerifyError.depositLogNotFound) := by
  intro logs
  induction logs with
  | nil => intro texist; cases texist <;> simp [parseErc20SwapinTxLogsAux]
  | cons l rest ih =>
    intro texist
    obtain ⟨laddr, ltop, ldata, lrem⟩ := l
    simp only [parseErc20SwapinTxLogsAux]
    by_cases hrem : lrem = true
    · have hl : isSwapinTransferLog cfg ⟨laddr, ltop, ldata, lrem⟩ = false := by
        simp [isSwapinTransferLog, hrem]
      rw [if_pos hrem, ih texist]
      simp [hl]
    · have hrem' : lrem = false := by simpa using hrem
      rw [if_neg hrem]
      by_cases haddr : eqFold laddr cfg.tokenAddress = true
      · rw [if_neg (by simp [haddr])]
        by_cases hlen3 : ltop.length = 3
        · by_cases hdat : ldata.isSome = true
          · rw [if_neg (by simp [hlen3, hdat])]
            rcases ltop with _ | ⟨t0, _ | ⟨t1, _ | ⟨t2, ttl⟩⟩⟩ <;> simp at hlen3
            have httl : ttl = [] := by simpa using hlen3
            subst httl
            simp only [List.get?]
            by_cases ht0 : t0 = transferLogTopic
            · rw [if_neg (by simp [ht0])]
              by_cases hrecv : eqFold (bytesToAddressHex t2) cfg.depositAddress = true
              · rw [if_pos hrecv]
                simp [List.any_cons, isSwapinTransferLog, swapinReceiverOk, hrem',
                  haddr, hdat, hrecv, ht0]
              · have hrecv' : eqFold (bytesToAddressHex t2) cfg.depositAddress = false := by
                  simpa using hrecv
                rw [if_neg hrecv, ih true]
                simp [List.any_cons, isSwapinTransferLog, swapinReceiverOk, hrem',
                  haddr, hdat, hrecv', ht0]
            · rw [if_pos (by simp [ht0]), ih texist]
              have hl : isSwapinTransferLog cfg ⟨laddr, [t0, t1, t2], ldata, lrem⟩ = false := by
                simp [isSwapinTransferLog, ht0]
              simp [hl]
          · have hdat' : ldata.isSome = false := by simpa using hdat
            rw [if_pos (by simp [hdat']), ih texist]
            have hl : isSwapinTransferLog cfg ⟨laddr, ltop, ldata, lrem⟩ = false := by
              simp [isSwapinTransferLog, hdat']
            simp [hl]
        · rw [if_pos (by simp [hlen3]), ih texist]
          have hl : isSwapinTransferLog cfg ⟨laddr, ltop, ldata, lrem⟩ = false := by
            simp [isSwapinTransferLog, hlen3]
          simp [hl]
      · have haddr' : eqFold laddr cfg.tokenAddress = false := by simpa using haddr
        rw [if_pos (by simp [haddr']), ih texist]
        have hl : isSwapinTransferLog cfg ⟨laddr, ltop, ldata, lrem⟩ = false := by
          simp [isSwapinTransferLog, haddr']
        simp [hl]

/-- Claim C5: for an ERC-20 bridge-swapin rule, receipt-log verification
succeeds iff some non-removed log on tokenAddress with the Transfer topic,
exactly 3 topics and non-nil data carries the deposit receiver in topics[2];
it returns wrong-receiver when such transfer logs exist but none matches, and
deposit-log-not-found when no such transfer log exists. -/
theorem parseErc20SwapinTxLogs_spec (cfg : TokenConfig) (logs : List Log)
    (h : cfg.txType = "swapin") :
    parseErc20SwapinTxLogsGo cfg logs = specErc20SwapinVerdict cfg logs := by
  have hgt : getLogTopicByTxType "swapin" = (transferLogTopic, 3) := by decide
  unfold parseErc20SwapinTxLogsGo specErc20SwapinVerdict
  rw [h, hgt]
  rw [parseErc20Aux_swapin cfg logs false]
  simp

/-- Claim C5 witness: a concrete swapin rule and receipt where the theorem's
hypothesis holds and the verification succeeds. -/
theorem parseErc20SwapinTxLogs_spec_witness :
    c5Cfg.txType = "swapin" ∧
    parseErc20SwapinTxLogsGo c5Cfg c5Logs = specErc20SwapinVerdict c5Cfg c5Logs ∧
    parseErc20SwapinTxLogsGo c5Cfg c5Logs = some none :=
  ⟨rfl, parseErc20SwapinTxLogs_spec c5Cfg c5Logs rfl, by decide⟩

theorem verifyRouterAux_none_iff (cfg : TokenConfig) (txHash : String) :
    ∀ (logs : List Log) (i : Nat),
      (verifyRouterAux cfg txHash i logs = none ↔
        ∃ l ∈ logs, l.removed = false ∧ eqFold l.address cfg.routerContract = true ∧
          l.topics = []) := by
  intro logs
  induction logs with
  | nil => intro i; simp [verifyRouterAux]
  | cons l rest ih =>
    intro i
    obtain ⟨laddr, ltop, ldata, lrem⟩ := l
    simp only [verifyRouterAux]
    by_cases hrem : lrem = true
    · rw [if_pos hrem]
      rw [ih (i + 1)]
      simp [hrem]
    · have hrem' : lrem = false := by simpa using hrem
      rw [if_neg hrem]
      by_cases haddr : eqFold laddr cfg.routerContract = true
      · rw [if_neg (by simp [haddr])]
        rcases ltop with _ | ⟨t0, ttl⟩
        · simp [hrem', haddr]
        · dsimp only
          by_cases htop : routerTopicSetOk cfg t0 = true
          · rw [if_pos htop]
            simp only [Option.map_eq_none']
            rw [ih (i + 1)]
            simp
          · rw [if_neg htop, ih (i + 1)]
            simp
      · have haddr' : eqFold laddr cfg.routerContract = false := by simpa using haddr
        rw [if_pos (by simp [haddr'])]
        rw [ih (i + 1)]
        simp [haddr']

/-- Claim C8: the router verifier reads topics[0] of every non-removed log on
the router contract without checking non-emptiness: the run panics (models as
none) precisely when some such log has an empty topics list, and is total
exactly under the precondition that every such log has at least one topic. -/
theorem verifyAndPostRouterSwapTx_topics_safety (cfg : TokenConfig)
    (txHash : String) (r : Receipt) :
    verifyAndPostRouterSwapTx txHash (some r) cfg = none ↔
      ∃ l ∈ r.logs, l.removed = false ∧ eqFold l.address cfg.routerContract = true ∧
        l.topics = [] := by
  unfold verifyAndPostRouterSwapTx
  exact verifyRouterAux_none_iff cfg txHash r.logs 0

theorem enumFrom_cons {α : Type} (n : Nat) (a : α) (l : List α) :
    List.enumFrom n (a :: l) = (n, a) :: List.enumFrom (n + 1) l := rfl

theorem verifyRouterAux_posts (cfg : TokenConfig) (txHash : String) :
    ∀ (logs : List Log) (i : Nat),
      (∀ l ∈ logs, l.removed = false → eqFold l.address cfg.routerContract = true →
        l.topics ≠ []) →
      verifyRouterAux cfg txHash i logs =
        some (((List.enumFrom i logs).filter (fun p => routerMatchingLog cfg p.2)).map
          (fun p => postRouterSwap txHash p.1 cfg)) := by
  intro logs
  induction logs with
  | nil => intro i _; simp [verifyRouterAux]
  | cons l rest ih =>
    intro i hsafe
    have hsafe' : ∀ l ∈ rest, l.removed = false →
        eqFold l.address cfg.routerContract = true → l.topics ≠ [] :=
      fun x hx => hsafe x (List.mem_cons_of_mem _ hx)
    have hsafeHead := hsafe l (List.mem_cons_self _ _)
    obtain ⟨laddr, ltop, ldata, lrem⟩ := l
    simp only [verifyRouterAux, enumFrom_cons]
    by_cases hrem : lrem = true
    · rw [if_pos hrem, ih (i + 1) hsafe']
      have hl : routerMatchingLog cfg ⟨laddr, ltop, ldata, lrem⟩ = false := by
        simp [routerMatchingLog, hrem]
      simp [hl]
    · have hrem' : lrem = false := by simpa using hrem
      rw [if_neg hrem]
      by_cases haddr : eqFold laddr cfg.routerContract = true
      · rw [if_neg (by simp [haddr])]
        rcases ltop with _ | ⟨t0, ttl⟩
        · exact absurd rfl (hsafeHead hrem' haddr)
        · dsimp only
          by_cases htop : routerTopicSetOk cfg t0 = true
          · rw [if_pos htop, ih (i + 1) hsafe']
            have hl : routerMatchingLog cfg ⟨laddr, t0 :: ttl, ldata, lrem⟩ = true := by
              simp [routerMatchingLog, routerLogTopicOk, hrem', haddr, htop]
            simp [hl]
          · have htop' : routerTopicSetOk cfg t0 = false := by simpa using htop
            rw [if_neg htop, ih (i + 1) hsafe']
            have hl : routerMatchingLog cfg ⟨laddr, t0 :: ttl, ldata, lrem⟩ = false := by
              simp [routerMatchingLog, routerLogTopicOk, htop']
            simp [hl]
      · have haddr' : eqFold laddr cfg.routerContract = false := by simpa using haddr
        rw [if_pos (by simp [haddr']), ih (i + 1) hsafe']
        have hl : routerMatchingLog cfg ⟨laddr, ltop, ldata, lrem⟩ = false := by
          simp [routerMatchingLog, haddr']
        simp [hl]

/-- Claim C2 (amended): for every transaction accepted by a router-erc20 or
router-gas rule (IsRouterSwap) with a receipt whose relevant logs all carry at
least one topic, the classifier emits exactly one router SwapRecord per
non-removed receipt log on the router contract whose first topic is in the
rule's topic-set, each carrying that log's index; router-nft and
router-anycall rules never reach the router verifier (verifyTransaction
dispatches on IsRouterSwap, which excludes them). -/
theorem verifyTransaction_router_posts (scanReceipt : Bool) (tx : Transaction)
    (cfg : TokenConfig) (r : Receipt) (txto : String)
    (hr : cfg.IsRouterSwap = true)
    (hto : tx.toAddr = some txto)
    (hmatch : eqFold txto cfg.routerContract = true)
    (hsafe : ∀ l ∈ r.logs, l.removed = false →
      eqFold l.address cfg.routerContract = true → l.topics ≠ []) :
    verifyTransaction scanReceipt (some r) tx cfg =
      some ⟨specRouterPosts cfg tx.hash r.logs, none⟩ := by
  have hchk : checkTxToAddress scanReceipt (some r) txto cfg = ⟨some r, true, true⟩ := by
    unfold checkTxToAddress expectedTxTo
    rw [hr]
    simp [hmatch]
  unfold verifyTransaction
  rw [hto]
  simp only [hchk, hr]
  simp only [Bool.not_true, Bool.false_eq_true, if_false, if_true]
  unfold verifyAndPostRouterSwapTx
  dsimp only
  rw [verifyRouterAux_posts cfg tx.hash r.logs 0 hsafe]
  rfl

/-- Claim C2, counterexample: a router-nft rule and a receipt containing
exactly one matching NFT721SwapOut log on the router contract; the claim
demands one router SwapRecord, but the classifier emits none (it routes the
transaction down the bridge-swapout path and fails with
swapout-log-not-found). -/
theorem verifyTransaction_nft_counterexample :
    ([c2Log].filter (fun l => routerMatchingLog c2Cfg l)).length = 1 ∧
    c2Cfg.IsRouterNFTSwap = true ∧
    verifyTransaction true (some ⟨[c2Log]⟩) c2Tx c2Cfg =
      some ⟨[], some VerifyError.swapoutLogNotFound⟩ :=
  ⟨by decide, by decide, by decide⟩

/-- Claim C2 amended-theorem witness: a concrete router-erc20 rule and a
receipt with one matching log at index 0 and one non-matching log at index 1;
the emitted posts match the spec-side list. -/
theorem verifyTransaction_router_posts_witness :
    c2ErcCfg.IsRouterSwap = true ∧
    (eqFold "0xr" c2ErcCfg.routerContract = true) ∧
    (∀ l ∈ [c2ErcLog, c2ErcLogOther], l.removed = false →
      eqFold l.address c2ErcCfg.routerContract = true → l.topics ≠ []) ∧
    verifyTransaction false (some ⟨[c2ErcLog, c2ErcLogOther]⟩)
        { toAddr := some "0xr", hash := "0xw2" } c2ErcCfg =
      some ⟨specRouterPosts c2ErcCfg "0xw2" [c2ErcLog, c2ErcLogOther], none⟩ ∧
    specRouterPosts c2ErcCfg "0xw2" [c2ErcLog, c2ErcLogOther] =
      [postRouterSwap "0xw2" 0 c2ErcCfg] :=
  ⟨by decide, by decide, by decide,
    verifyTransaction_router_posts false { toAddr := some "0xr", hash := "0xw2" }
      c2ErcCfg ⟨[c2ErcLog, c2ErcLogOther]⟩ "0xr" (by decide) rfl (by decide) (by decide),
    by decide⟩

/-- Claim C3, counterexample: a native-token bridge rule with a whitelist; the
transaction's to-address differs from the expected to-address (the deposit
address) but equals a whitelist entry, yet checkTxToAddress rejects the
transaction without fetching any receipt — the whitelist branch is skipped for
native-token rules. -/
theorem checkTxToAddress_native_whitelist_counterexample :
    eqFold "0xwhite" (expectedTxTo false c3Cfg).1 = false ∧
    c3Cfg.whitelist.any (fun w => eqFold "0xwhite" w) = true ∧
    checkTxToAddress false (some ⟨[]⟩) "0xwhite" c3Cfg = ⟨none, false, false⟩ :=
  ⟨by decide, by decide, by decide⟩

/-- Claim C3 (amended): for every non-native TokenRule with a whitelist and
every transaction whose to-address differs from the rule's expected to-address
but equals (case-insensitively) some whitelist entry, the rule applies and a
receipt is fetched (given the receipt lookup succeeds); native-token rules
never consult the whitelist. -/
theorem checkTxToAddress_whitelist (scanReceipt : Bool) (r : Receipt)
    (txto : String) (cfg : TokenConfig)
    (hnn : cfg.IsNativeToken = false)
    (hdiff : eqFold txto (expectedTxTo scanReceipt cfg).1 = false)
    (hwl : cfg.whitelist.any (fun w => eqFold txto w) = true) :
    checkTxToAddress scanReceipt (some r) txto cfg = ⟨some r, true, true⟩ := by
  unfold checkTxToAddress
  simp [hdiff, hnn, hwl]

/-- Claim C3 amended-theorem witness at a concrete non-native rule. -/
theorem checkTxToAddress_whitelist_witness :
    c3NonNativeCfg.IsNativeToken = false ∧
    eqFold "0xwhite" (expectedTxTo false c3NonNativeCfg).1 = false ∧
    c3NonNativeCfg.whitelist.any (fun w => eqFold "0xwhite" w) = true ∧
    checkTxToAddress false (some ⟨[]⟩) "0xwhite" c3NonNativeCfg =
      ⟨some ⟨[]⟩, true, true⟩ :=
  ⟨by decide, by decide, by decide,
    checkTxToAddress_whitelist false ⟨[]⟩ "0xwhite" c3NonNativeCfg
      (by decide) (by decide) (by decide)⟩

end Gethscan
